import Mathlib

/-!
Verification development for the Circuitclock repository (src/main.py), a
CircuitPython NeoPixel 60-LED analog clock with WiFi client mode, AP-mode
fallback and a configuration web interface.

The configuration store (load_config / save_config, DEFAULT_CONFIG) and the
connectivity entry points (start_ap_mode, try_connect_wifi) are embedded from
src/main.py. The source file is truncated before the rendering code and the
main loop, so ClockGeometry, ColorModel and the standard-mode render engine,
as well as the startup driver that falls back to AP mode, are modelled from
the specification (spec.md sections 4.1-4.4), as indicated on each definition.
-/

namespace Circuitclock

/-- A JSON value of the shapes that actually occur in the clock's
configuration file: strings, numbers (Python ints and floats, embedded as
rationals), booleans and 3-element RGB arrays. -/
inductive JValue where
  | jstr (s : String)
  | jnum (q : ℚ)
  | jbool (b : Bool)
  | jrgb (r g b : ℕ)
deriving DecidableEq

/-- A Python dict with string keys, as an association list (first binding of a
key is its value; assignment overwrites in place). -/
abbrev Dict := List (String × JValue)

/-- `d.get k`: Python `d.get(k)` / `d[k]` lookup, `none` when absent. -/
def Dict.get : Dict → String → Option JValue
  | [], _ => none
  | (k', v) :: rest, k => if k' = k then some v else Dict.get rest k

/-- `d.set k v`: Python `d[k] = v` — overwrite the existing binding in place,
or append a new binding at the end. -/
def Dict.set : Dict → String → JValue → Dict
  | [], k, v => [(k, v)]
  | (k', v') :: rest, k, v =>
      if k' = k then (k, v) :: rest else (k', v') :: Dict.set rest k v

/-- `DEFAULT_CONFIG` from src/main.py lines 27-43. -/
def DEFAULT_CONFIG : Dict :=
  [ ("wifi_ssid", .jstr ""),
    ("wifi_password", .jstr ""),
    ("ap_ssid", .jstr "LEDClock"),
    ("ap_password", .jstr "clockconfig"),
    ("ap_mode", .jbool false),
    ("brightness", .jnum (1/5)),
    ("hour_color", .jrgb 255 0 0),
    ("minute_color", .jrgb 0 255 0),
    ("second_color", .jrgb 0 0 255),
    ("marker_color", .jrgb 32 32 32),
    ("background_color", .jrgb 0 0 0),
    ("mode", .jstr "standard"),
    ("trail_length", .jnum 3),
    ("pulse_speed", .jnum 5),
    ("rainbow_speed", .jnum 5) ]

/-- The keys of the fixed default set. -/
def defaultKeys : List String := DEFAULT_CONFIG.map Prod.fst

/-- Outcome of opening and parsing `/config.json`: `ok d` when the file was
read and `json.loads` produced the object `d`; `err` for an `OSError`
(missing/unreadable file) or `ValueError` (malformed JSON). -/
inductive FileRead where
  | ok (d : Dict)
  | err
deriving DecidableEq

/-- The merge loop of `load_config` (src/main.py lines 767-768):
`for key, value in DEFAULT_CONFIG.items(): config[key] = loaded_config.get(key, value)`,
folding over the default bindings and assigning into the current `config`. -/
def mergeLoop : Dict → Dict → Dict → Dict
  | [], current, _ => current
  | (k, v) :: rest, current, loaded =>
      mergeLoop rest (current.set k ((loaded.get k).getD v)) loaded

/-- `load_config` (src/main.py lines 757-777). Given the file-read outcome and
the current global `config`, returns the new `config` together with whether
`save_config` was called during the load. On a successful parse the defaults
are merged with the loaded values (no save); on `OSError`/`ValueError` the
config is reset to `DEFAULT_CONFIG.copy()` and `save_config()` writes the
default file. -/
def load_config : FileRead → Dict → Dict × Bool
  | .ok loaded, current => (mergeLoop DEFAULT_CONFIG current loaded, false)
  | .err, _ => (DEFAULT_CONFIG, true)

/-- `save_config` (src/main.py lines 779-789): writes `json.dumps(config)` to
`/config.json` and returns `True`. The JSON round-trip of a dict of `JValue`s
is the identity, so the resulting file state is `FileRead.ok c`. (The
`except` branch returning `False` corresponds to an external filesystem
failure, outside this model.) -/
def save_config (c : Dict) : FileRead × Bool := (.ok c, true)

/-- The globals touched by `start_ap_mode` (src/main.py lines 54-62):
`in_ap_mode`, and whether the AP web server was brought up. -/
structure NetGlobals where
  in_ap_mode : Bool
  server_started : Bool
deriving DecidableEq

/-- Modelled from the spec: the external radio primitive
`wifi.radio.start_ap` (spec.md section 6, not repository code) — the
`ap_password` "must be ≥8 characters or AP creation fails" (section 3), and
"length 8 succeeds" (section 8). It returns a failure indication rather than
retrying internally. -/
def radio_start_ap (ssid password : String) : Bool :=
  let _ := ssid
  decide (8 ≤ password.length)

/-- `start_ap_mode` (src/main.py lines 800-831). Sets the global
`in_ap_mode = True` first, then reads `ap_ssid`/`ap_password` from the config
with `config.get(key, default)`, calls `wifi.radio.start_ap` and starts the
web server. Any exception (AP creation failure included) is caught and the
function returns `False`; `in_ap_mode` is not reset. A non-string credential
makes the radio call raise, hence the catch-all branch. -/
def start_ap_mode (cfg : Dict) (g : NetGlobals) : Bool × NetGlobals :=
  let g1 : NetGlobals := { g with in_ap_mode := true }
  match (cfg.get "ap_ssid").getD (.jstr "LEDClock"),
        (cfg.get "ap_password").getD (.jstr "clockconfig") with
  | .jstr s, .jstr p =>
      if radio_start_ap s p then (true, { g1 with server_started := true })
      else (false, g1)
  | _, _ => (false, g1)

/-- Python truthiness of an optional config value, as tested by
`if not config.get("wifi_ssid")` (src/main.py line 838): absent keys, empty
strings, zero and `False` are falsy; a 3-element RGB list is truthy. -/
def truthy : Option JValue → Bool
  | none => false
  | some (.jstr s) => !s.isEmpty
  | some (.jnum q) => decide (q ≠ 0)
  | some (.jbool b) => b
  | some (.jrgb _ _ _) => true

/-- The states of the connectivity manager (spec.md section 3,
ConnectivityState). -/
inductive ConnectivityState where
  | Disconnected
  | ConnectingClient
  | ClientConnected
  | APMode
deriving DecidableEq

/-- `try_connect_wifi` (src/main.py lines 833-840): when
`config.get("wifi_ssid")` is falsy the function returns `False` immediately,
before any radio call. The remainder of the function is absent from src/ (the
file is truncated at line 840), so the connection attempt itself is modelled
from the spec (section 4.4): enter ConnectingClient and attempt a client
connection with a bounded timeout; on success, ClientConnected. Returns the
success flag together with the connectivity states entered during the call. -/
def try_connect_wifi (cfg : Dict) (radioConnectOk : Bool) :
    Bool × List ConnectivityState :=
  if truthy (cfg.get "wifi_ssid") = false then
    (false, [])
  else if radioConnectOk then
    (true, [ConnectivityState.ConnectingClient, ConnectivityState.ClientConnected])
  else
    (false, [ConnectivityState.ConnectingClient])

/-- Modelled from the spec: the startup driver (absent from src/— the file is
truncated before the main program). Spec.md section 4.4: start Disconnected;
if `wifi_ssid` is non-empty attempt a client connection via
`try_connect_wifi`; "on connection failure or absent SSID → APMode". Returns
the sequence of connectivity states entered during startup. -/
def startup_states (cfg : Dict) (radioConnectOk : Bool) :
    List ConnectivityState :=
  let r := try_connect_wifi cfg radioConnectOk
  ConnectivityState.Disconnected ::
    (r.2 ++ if r.1 then [] else [ConnectivityState.APMode])

/-- Modelled from the spec: ClockGeometry second hand (section 4.1) — one full
rotation per 60 seconds on the 60-pixel ring. `t` is a time in seconds; the
position is the integral pixel `t mod 60`. -/
def second_hand_pos (t : ℕ) : ℕ := t % 60

/-- Modelled from the spec: ClockGeometry minute hand (section 4.1) — one full
rotation per 60 minutes, one pixel per minute. -/
def minute_hand_pos (m : ℕ) : ℚ := ((m % 60 : ℕ) : ℚ)

/-- Modelled from the spec: ClockGeometry hour hand (section 4.1) — one full
rotation per 12 hours (5 pixels per hour), including "the fractional
contribution of minutes (i.e., advances smoothly, not in 5-pixel jumps)". -/
def hour_hand_pos (h m : ℕ) : ℚ :=
  ((h % 12 : ℕ) : ℚ) * 5 + ((m % 60 : ℕ) : ℚ) * 5 / 60

/-- An RGB triple; each channel is intended to lie in [0,255]. -/
structure Color where
  r : ℕ
  g : ℕ
  b : ℕ
deriving DecidableEq

/-- Modelled from the spec: one channel of ColorModel brightness scaling
(section 4.2) — "each channel multiplied and clamped to [0,255], rounding
down". The floor of a negative product is clamped to 0 by `Int.toNat`. -/
def scale_channel (c : ℕ) (f : ℚ) : ℕ :=
  min 255 (Int.toNat ⌊(c : ℚ) * f⌋)

/-- Modelled from the spec: `ColorModel.scale` (section 4.2) — linear-scale an
RGB triple by a brightness factor. -/
def ColorModel.scale (col : Color) (f : ℚ) : Color :=
  ⟨scale_channel col.r f, scale_channel col.g f, scale_channel col.b f⟩

/-- Round a fractional pixel position to the nearest integer pixel index on
the 60-pixel ring (spec.md section 4.3: hands "rounded to nearest integer
index"). -/
def roundIndex (q : ℚ) : ℕ := (Int.toNat ⌊q + 1/2⌋) % 60

/-- The color configuration consumed by the standard-mode renderer. -/
structure RenderColors where
  hour_color : Color
  minute_color : Color
  second_color : Color
  marker_color : Color
  background_color : Color

/-- Modelled from the spec: RenderEngine standard mode (section 4.3) — a
background-colored 60-pixel frame, the marker color painted at the 12
hour-tick positions (every 5th pixel) before the hands, then the hour, minute
and second hand pixels painted in that order, so later hands and all hands
take priority over markers. -/
def render_standard (rc : RenderColors) (h m s : ℕ) : List Color :=
  let base := (List.range 60).map
    (fun i => if i % 5 = 0 then rc.marker_color else rc.background_color)
  let f1 := base.set (roundIndex (hour_hand_pos h m)) rc.hour_color
  let f2 := f1.set (roundIndex (minute_hand_pos m)) rc.minute_color
  f2.set (roundIndex ((second_hand_pos s : ℕ) : ℚ)) rc.second_color

/-! ### Dictionary and merge lemmas -/

theorem Dict.get_set :
    ∀ (d : Dict) (k k' : String) (v : JValue),
      (d.set k v).get k' = if k' = k then some v else d.get k'
  | [], k, k', v => by
      simp only [Dict.set, Dict.get]
      by_cases h : k = k'
      · simp [h]
      · simp [h, Ne.symm h]
  | (k0, v0) :: tl, k, k', v => by
      simp only [Dict.set]
      by_cases h0 : k0 = k
      · subst h0
        simp only [if_pos rfl, Dict.get]
        by_cases h1 : k0 = k'
        · subst h1; simp
        · simp [h1, Ne.symm h1]
      · simp only [if_neg h0, Dict.get]
        by_cases h1 : k0 = k'
        · subst h1; simp [h0]
        · simp [h1, Dict.get_set tl k k' v]

theorem mergeLoop_get_of_not_mem :
    ∀ (ds current loaded : Dict) (k : String), k ∉ ds.map Prod.fst →
      (mergeLoop ds current loaded).get k = current.get k
  | [], _, _, _, _ => rfl
  | (k0, v0) :: tl, current, loaded, k, hk => by
      simp only [List.map_cons, List.mem_cons] at hk
      push_neg at hk
      simp only [mergeLoop]
      rw [mergeLoop_get_of_not_mem tl _ loaded k hk.2, Dict.get_set]
      simp [hk.1]

theorem mergeLoop_get_of_mem :
    ∀ (ds current loaded : Dict) (k : String) (v : JValue),
      (ds.map Prod.fst).Nodup → (k, v) ∈ ds →
      (mergeLoop ds current loaded).get k = some ((loaded.get k).getD v)
  | [], _, _, _, _, _, hmem => by simp at hmem
  | (k0, v0) :: tl, current, loaded, k, v, hnd, hmem => by
      simp only [List.map_cons, List.nodup_cons] at hnd
      simp only [mergeLoop]
      rcases List.mem_cons.mp hmem with heq | htl
      · injection heq with hk hv
        subst hk; subst hv
        rw [mergeLoop_get_of_not_mem tl _ loaded k hnd.1, Dict.get_set]
        simp
      · exact mergeLoop_get_of_mem tl _ loaded k v hnd.2 htl

theorem get_isSome_of_mem_keys :
    ∀ (d : Dict) (k : String), k ∈ d.map Prod.fst → (d.get k).isSome
  | [], k, hk => by simp at hk
  | (k0, v0) :: tl, k, hk => by
      simp only [List.map_cons, List.mem_cons] at hk
      simp only [Dict.get]
      by_cases h : k0 = k
      · simp [h]
      · rcases hk with h1 | h1
        · exact absurd h1.symm h
        · simp [h, get_isSome_of_mem_keys tl k h1]

theorem default_keys_nodup : (DEFAULT_CONFIG.map Prod.fst).Nodup := by
  decide

/-! ### Claims about the configuration store -/

/-- C1, counterexample: a config file that parses as JSON but is missing keys
(here only `wifi_ssid` is present, `brightness` among others is absent) is
merged in memory, but `save_config` is NOT called during `load_config` — the
returned save flag is `false`, so no save of the merged configuration happens
as part of the load, contradicting the claim. -/
theorem c1_counterexample :
    (load_config (.ok [("wifi_ssid", JValue.jstr "myhome")]) []).2 = false ∧
    Dict.get [("wifi_ssid", JValue.jstr "myhome")] "brightness" = none := by
  constructor
  · rfl
  · rfl

/-- C1 (amended): for every persisted config file that parses as JSON,
`load_config` fills each missing key from the fixed default set in the
in-memory configuration but does not persist the merged result back;
`save_config` is called only when the file is unreadable or fails to parse,
in which case the pure defaults are written to storage. -/
theorem c1_merge_without_save (loaded current : Dict) (k : String)
    (v : JValue) (hkv : (k, v) ∈ DEFAULT_CONFIG)
    (hmiss : loaded.get k = none) :
    (load_config (.ok loaded) current).2 = false ∧
    ((load_config (.ok loaded) current).1).get k = some v ∧
    load_config .err current = (DEFAULT_CONFIG, true) := by
  refine ⟨rfl, ?_, rfl⟩
  simp only [load_config]
  rw [mergeLoop_get_of_mem DEFAULT_CONFIG current loaded k v
        default_keys_nodup hkv, hmiss]
  rfl

/-- Witness for `c1_merge_without_save` at a file holding only `wifi_ssid`. -/
theorem c1_merge_without_save_witness :
    (load_config (.ok [("wifi_ssid", JValue.jstr "myhome")]) []).2 = false ∧
    ((load_config (.ok [("wifi_ssid", JValue.jstr "myhome")]) []).1).get
        "mode" = some (.jstr "standard") ∧
    load_config .err [] = (DEFAULT_CONFIG, true) :=
  c1_merge_without_save [("wifi_ssid", JValue.jstr "myhome")] [] "mode"
    (JValue.jstr "standard") (by decide) (by decide)

/-- C4: saving a configuration `c` that contains every key of the default set
and then loading it back yields a configuration extensionally equal to `c`
(same value at every key) — round-trip identity of the config store. -/
theorem c4_save_load_roundtrip (c : Dict)
    (hfull : ∀ kv, kv ∈ DEFAULT_CONFIG → (c.get kv.1).isSome = true) :
    ∀ k, ((load_config (save_config c).1 c).1).get k = c.get k := by
  intro k
  simp only [save_config, load_config]
  by_cases hk : k ∈ DEFAULT_CONFIG.map Prod.fst
  · obtain ⟨⟨k0, v⟩, hmem, hfst⟩ := List.mem_map.mp hk
    cases hfst
    rw [mergeLoop_get_of_mem DEFAULT_CONFIG c c k0 v default_keys_nodup hmem]
    obtain ⟨w, hw⟩ := Option.isSome_iff_exists.mp (hfull (k0, v) hmem)
    rw [hw]
    rfl
  · exact mergeLoop_get_of_not_mem DEFAULT_CONFIG c c k hk

/-- Witness for `c4_save_load_roundtrip` at `c = DEFAULT_CONFIG`. -/
theorem c4_save_load_roundtrip_witness :
    ((load_config (save_config DEFAULT_CONFIG).1 DEFAULT_CONFIG).1).get "mode"
      = DEFAULT_CONFIG.get "mode" :=
  c4_save_load_roundtrip DEFAULT_CONFIG (by decide) "mode"

/-- C5: after `load_config` returns — whether the file parsed (with or
without missing keys) or was unreadable/malformed — the resulting
configuration has a value for every key of the fixed default set. -/
theorem c5_config_fully_populated (f : FileRead) (current : Dict)
    (k : String) (hk : k ∈ defaultKeys) :
    (((load_config f current).1).get k).isSome = true := by
  simp only [defaultKeys] at hk
  cases f with
  | ok loaded =>
      simp only [load_config]
      obtain ⟨⟨k0, v⟩, hmem, hfst⟩ := List.mem_map.mp hk
      cases hfst
      rw [mergeLoop_get_of_mem DEFAULT_CONFIG current loaded k0 v
            default_keys_nodup hmem]
      rfl
  | err => exact get_isSome_of_mem_keys DEFAULT_CONFIG k hk

/-- Witness for `c5_config_fully_populated` at an unreadable file and at a
parsed file missing every key. -/
theorem c5_config_fully_populated_witness :
    (((load_config .err []).1).get "brightness").isSome = true ∧
    (((load_config (.ok []) []).1).get "second_color").isSome = true :=
  ⟨c5_config_fully_populated .err [] "brightness" (by decide),
   c5_config_fully_populated (.ok []) [] "second_color" (by decide)⟩

/-- C6: loading the same parsed config file twice in a row produces the same
merged configuration both times (the second load, over the first load's
result, agrees at every key), and the merge never changes the value of a
configuration key that was already present in the file. -/
theorem c6_load_idempotent (loaded current : Dict) (k : String) :
    (((load_config (.ok loaded)
        ((load_config (.ok loaded) current).1)).1).get k
      = ((load_config (.ok loaded) current).1).get k) ∧
    (∀ v, k ∈ defaultKeys → loaded.get k = some v →
      ((load_config (.ok loaded) current).1).get k = some v) := by
  constructor
  · simp only [load_config]
    by_cases hk : k ∈ DEFAULT_CONFIG.map Prod.fst
    · obtain ⟨⟨k0, v⟩, hmem, hfst⟩ := List.mem_map.mp hk
      cases hfst
      rw [mergeLoop_get_of_mem DEFAULT_CONFIG _ loaded k0 v
            default_keys_nodup hmem,
          mergeLoop_get_of_mem DEFAULT_CONFIG _ loaded k0 v
            default_keys_nodup hmem]
    · rw [mergeLoop_get_of_not_mem DEFAULT_CONFIG _ loaded k hk,
          mergeLoop_get_of_not_mem DEFAULT_CONFIG _ loaded k hk]
  · intro v hk hv
    simp only [defaultKeys] at hk
    obtain ⟨⟨k0, v0⟩, hmem, hfst⟩ := List.mem_map.mp hk
    cases hfst
    simp only [load_config]
    rw [mergeLoop_get_of_mem DEFAULT_CONFIG current loaded k0 v0
          default_keys_nodup hmem, hv]
    rfl

/-- Witness for `c6_load_idempotent` at a file that holds `mode` but misses
every other key. -/
theorem c6_load_idempotent_witness :
    (((load_config (.ok [("mode", JValue.jstr "trail")])
        ((load_config (.ok [("mode", JValue.jstr "trail")]) []).1)).1).get
          "mode"
      = ((load_config (.ok [("mode", JValue.jstr "trail")]) []).1).get
          "mode") ∧
    ((load_config (.ok [("mode", JValue.jstr "trail")]) []).1).get
        "mode" = some (.jstr "trail") :=
  ⟨(c6_load_idempotent [("mode", JValue.jstr "trail")] [] "mode").1,
   (c6_load_idempotent [("mode", JValue.jstr "trail")] [] "mode").2
     (JValue.jstr "trail") (by decide) (by decide)⟩

/-! ### Claims about connectivity -/

/-- C2: starting the access point with an `ap_password` shorter than 8
characters fails deterministically — `start_ap_mode` returns `False` in a
single attempt, with no retry on a truncated or padded password — while a
password of length exactly 8 succeeds. -/
theorem c2_ap_password_boundary (cfg : Dict) (g : NetGlobals) (s p : String)
    (hs : (cfg.get "ap_ssid").getD (.jstr "LEDClock") = .jstr s)
    (hp : (cfg.get "ap_password").getD (.jstr "clockconfig") = .jstr p) :
    (p.length < 8 → (start_ap_mode cfg g).1 = false) ∧
    (p.length = 8 → (start_ap_mode cfg g).1 = true) := by
  constructor
  · intro hlen
    have hr : radio_start_ap s p = false := by
      simp only [radio_start_ap]
      exact decide_eq_false (by omega)
    simp only [start_ap_mode, hs, hp]
    simp [hr]
  · intro hlen
    have hr : radio_start_ap s p = true := by
      simp only [radio_start_ap]
      exact decide_eq_true (by omega)
    simp only [start_ap_mode, hs, hp]
    simp [hr]

/-- Witness for `c2_ap_password_boundary`: a 7-character password fails, an
8-character password succeeds. -/
theorem c2_ap_password_boundary_witness :
    (start_ap_mode [("ap_password", JValue.jstr "short77")]
        ⟨false, false⟩).1 = false ∧
    (start_ap_mode [("ap_password", JValue.jstr "exactly8")]
        ⟨false, false⟩).1 = true :=
  ⟨(c2_ap_password_boundary [("ap_password", JValue.jstr "short77")]
      ⟨false, false⟩ "LEDClock" "short77" (by decide) (by decide)).1
      (by decide),
   (c2_ap_password_boundary [("ap_password", JValue.jstr "exactly8")]
      ⟨false, false⟩ "LEDClock" "exactly8" (by decide) (by decide)).2
      (by decide)⟩

/-- C3: when the configured `wifi_ssid` is the empty string at startup, the
connectivity state sequence is exactly Disconnected followed by APMode — the
ConnectingClient state is never entered, whatever the radio would have
answered. -/
theorem c3_empty_ssid_direct_to_ap (cfg : Dict) (radioConnectOk : Bool)
    (h : cfg.get "wifi_ssid" = some (.jstr "")) :
    startup_states cfg radioConnectOk
        = [ConnectivityState.Disconnected, ConnectivityState.APMode] ∧
    ConnectivityState.ConnectingClient ∉ startup_states cfg radioConnectOk := by
  have ht : truthy (cfg.get "wifi_ssid") = false := by rw [h]; rfl
  have hc : try_connect_wifi cfg radioConnectOk = (false, []) := by
    simp [try_connect_wifi, ht]
  constructor
  · simp [startup_states, hc]
  · simp [startup_states, hc]

/-- Witness for `c3_empty_ssid_direct_to_ap` at a config whose `wifi_ssid`
is the empty string. -/
theorem c3_empty_ssid_direct_to_ap_witness :
    startup_states [("wifi_ssid", JValue.jstr "")] true
        = [ConnectivityState.Disconnected, ConnectivityState.APMode] ∧
    ConnectivityState.ConnectingClient
        ∉ startup_states [("wifi_ssid", JValue.jstr "")] true :=
  c3_empty_ssid_direct_to_ap [("wifi_ssid", JValue.jstr "")] true (by decide)

/-- C10: `start_ap_mode` sets the global `in_ap_mode` flag to `True` before
attempting to create the access point, and leaves it `True` on every path —
in particular when AP creation fails and the function returns `False`, the
device still reports itself as being in AP mode. -/
theorem c10_in_ap_mode_sticky (cfg : Dict) (g : NetGlobals) :
    ((start_ap_mode cfg g).2).in_ap_mode = true := by
  unfold start_ap_mode
  split
  · split
    · rfl
    · rfl
  · rfl

/-! ### Claims about clock geometry and the color model -/

theorem scale_channel_mono (c : ℕ) (f1 f2 : ℚ) (h : f1 ≤ f2) :
    scale_channel c f1 ≤ scale_channel c f2 := by
  unfold scale_channel
  have h1 : (c : ℚ) * f1 ≤ (c : ℚ) * f2 :=
    mul_le_mul_of_nonneg_left h (by positivity)
  exact min_le_min (le_refl 255)
    (Int.toNat_le_toNat (Int.floor_le_floor h1))

/-- C8: a one-second increment moves the second hand by exactly 1 pixel
modulo 60; and within an hour the hour-hand position advances strictly
monotonically with the minutes, by 5/60 of a pixel per minute — the
fractional contribution of minutes, not 5-pixel jumps. -/
theorem c8_hand_continuity :
    (∀ t : ℕ, second_hand_pos (t + 1) = (second_hand_pos t + 1) % 60) ∧
    (∀ h m : ℕ, m + 1 < 60 →
      hour_hand_pos h m < hour_hand_pos h (m + 1) ∧
      hour_hand_pos h (m + 1) - hour_hand_pos h m = 5 / 60) := by
  constructor
  · intro t
    simp only [second_hand_pos]
    omega
  · intro h m hm
    have hm1 : m % 60 = m := Nat.mod_eq_of_lt (by omega)
    have hm2 : (m + 1) % 60 = m + 1 := Nat.mod_eq_of_lt hm
    constructor
    · simp only [hour_hand_pos, hm1, hm2]
      push_cast
      linarith
    · simp only [hour_hand_pos, hm1, hm2]
      push_cast
      ring

/-- Witness for `c8_hand_continuity` across the minute boundary 59→60 and at
03:15. -/
theorem c8_hand_continuity_witness :
    second_hand_pos 60 = (second_hand_pos 59 + 1) % 60 ∧
    hour_hand_pos 3 15 < hour_hand_pos 3 16 ∧
    hour_hand_pos 3 16 - hour_hand_pos 3 15 = 5 / 60 :=
  ⟨c8_hand_continuity.1 59,
   (c8_hand_continuity.2 3 15 (by omega)).1,
   (c8_hand_continuity.2 3 15 (by omega)).2⟩

/-- C9: brightness scaling maps every color to all-zero at factor 0, is the
identity at factor 1 (channels in [0,255]), computes each channel as the
clamped floor of channel times factor, and is monotone in the factor on each
channel. -/
theorem c9_scale_properties (col : Color)
    (hr : col.r ≤ 255) (hg : col.g ≤ 255) (hb : col.b ≤ 255) :
    ColorModel.scale col 0 = ⟨0, 0, 0⟩ ∧
    ColorModel.scale col 1 = col ∧
    (∀ f : ℚ, ColorModel.scale col f =
      ⟨min 255 (Int.toNat ⌊(col.r : ℚ) * f⌋),
       min 255 (Int.toNat ⌊(col.g : ℚ) * f⌋),
       min 255 (Int.toNat ⌊(col.b : ℚ) * f⌋)⟩) ∧
    (∀ f1 f2 : ℚ, f1 ≤ f2 →
      (ColorModel.scale col f1).r ≤ (ColorModel.scale col f2).r ∧
      (ColorModel.scale col f1).g ≤ (ColorModel.scale col f2).g ∧
      (ColorModel.scale col f1).b ≤ (ColorModel.scale col f2).b) := by
  have hzero : ∀ c : ℕ, scale_channel c 0 = 0 := by
    intro c
    simp [scale_channel]
  have hone : ∀ c : ℕ, c ≤ 255 → scale_channel c 1 = c := by
    intro c hc
    simp only [scale_channel, mul_one, Int.floor_natCast, Int.toNat_natCast]
    omega
  refine ⟨?_, ?_, fun f => rfl, fun f1 f2 h =>
    ⟨scale_channel_mono _ _ _ h, scale_channel_mono _ _ _ h,
     scale_channel_mono _ _ _ h⟩⟩
  · simp [ColorModel.scale, hzero]
  · cases col with
    | mk r g b =>
        simp only [ColorModel.scale]
        simp [hone r hr, hone g hg, hone b hb]

/-- Witness for `c9_scale_properties` at the color (255, 128, 0). -/
theorem c9_scale_properties_witness :
    ColorModel.scale ⟨255, 128, 0⟩ 0 = ⟨0, 0, 0⟩ ∧
    ColorModel.scale ⟨255, 128, 0⟩ 1 = ⟨255, 128, 0⟩ ∧
    (ColorModel.scale ⟨255, 128, 0⟩ (1/2)).g
      ≤ (ColorModel.scale ⟨255, 128, 0⟩ 1).g :=
  ⟨(c9_scale_properties ⟨255, 128, 0⟩ (by decide) (by decide) (by decide)).1,
   (c9_scale_properties ⟨255, 128, 0⟩ (by decide) (by decide) (by decide)).2.1,
   ((c9_scale_properties ⟨255, 128, 0⟩ (by decide) (by decide)
      (by decide)).2.2.2 (1/2) 1 (by norm_num)).2.1⟩

/-! ### The standard-mode frame at 03:15:30 -/

theorem hour_index_at_0315 : roundIndex (hour_hand_pos 3 15) = 16 := by
  norm_num [roundIndex, hour_hand_pos]
  decide

theorem minute_index_at_15 : roundIndex (minute_hand_pos 15) = 15 := by
  norm_num [roundIndex, minute_hand_pos]
  decide

theorem second_index_at_30 :
    roundIndex ((second_hand_pos 30 : ℕ) : ℚ) = 30 := by
  norm_num [roundIndex, second_hand_pos]
  decide

/-- C7: at 03:15:30 in standard mode with hour color red, minute color green,
second color blue and black background, the rendered frame has the hour hand
at pixel 16, the minute hand at pixel 15 and the second hand at pixel 30 —
red, green and blue respectively, for every marker color, since hands are
painted after markers and take priority — and, with the markers painted
black, every other pixel of the 60-pixel frame is black. -/
theorem c7_standard_frame_at_031530 :
    (∀ mc : Color,
      (render_standard ⟨⟨255, 0, 0⟩, ⟨0, 255, 0⟩, ⟨0, 0, 255⟩, mc,
          ⟨0, 0, 0⟩⟩ 3 15 30)[16]? = some ⟨255, 0, 0⟩ ∧
      (render_standard ⟨⟨255, 0, 0⟩, ⟨0, 255, 0⟩, ⟨0, 0, 255⟩, mc,
          ⟨0, 0, 0⟩⟩ 3 15 30)[15]? = some ⟨0, 255, 0⟩ ∧
      (render_standard ⟨⟨255, 0, 0⟩, ⟨0, 255, 0⟩, ⟨0, 0, 255⟩, mc,
          ⟨0, 0, 0⟩⟩ 3 15 30)[30]? = some ⟨0, 0, 255⟩) ∧
    render_standard ⟨⟨255, 0, 0⟩, ⟨0, 255, 0⟩, ⟨0, 0, 255⟩, ⟨0, 0, 0⟩,
        ⟨0, 0, 0⟩⟩ 3 15 30
      = (List.range 60).map (fun i =>
          if i = 16 then ⟨255, 0, 0⟩
          else if i = 15 then ⟨0, 255, 0⟩
          else if i = 30 then ⟨0, 0, 255⟩
          else ⟨0, 0, 0⟩) := by
  constructor
  · intro mc
    simp only [render_standard, hour_index_at_0315, minute_index_at_15,
      second_index_at_30]
    have hlen : ((List.range 60).map (fun i =>
        if i % 5 = 0 then mc else (⟨0, 0, 0⟩ : Color))).length = 60 := by
      simp
    refine ⟨?_, ?_, ?_⟩
    · rw [List.getElem?_set_ne (by omega : (30 : ℕ) ≠ 16),
          List.getElem?_set_ne (by omega : (15 : ℕ) ≠ 16),
          List.getElem?_set_eq_of_lt]
      rw [hlen]
      omega
    · rw [List.getElem?_set_ne (by omega : (30 : ℕ) ≠ 15),
          List.getElem?_set_eq_of_lt]
      rw [List.length_set, hlen]
      omega
    · rw [List.getElem?_set_eq_of_lt]
      rw [List.length_set, List.length_set, hlen]
      omega
  · simp only [render_standard, hour_index_at_0315, minute_index_at_15,
      second_index_at_30]
    decide

end Circuitclock
